import Mathlib

/-!
Shallow embedding of `core/jni/android_os_seccomp.cpp`: the seccomp
filter-program builder (architecture gate, jump patcher, policy embedder,
installer plumbing) together with a small evaluator for the classic-BPF
instructions the builder emits, used to state the spec's "simulated
evaluation" properties.

Machine integers are modelled as `Nat` with explicit wraparound where the
C++ types make it observable: `size_t` arithmetic wraps modulo 2^64 and the
`(__u8)` cast truncates modulo 256.
-/

/-- `struct sock_filter`: one classic BPF instruction
`{code : u16, jt : u8, jf : u8, k : u32}`. -/
structure sock_filter where
  code : Nat
  jt : Nat
  jf : Nat
  k : Nat
deriving DecidableEq, Repr

/-- `typedef std::vector<sock_filter> filter;` -/
abbrev filter := List sock_filter

/-- `BPF_STMT(code, k)` from `linux/filter.h`: jt = jf = 0. -/
def BPF_STMT (code k : Nat) : sock_filter := ⟨code, 0, 0, k⟩

/-- `BPF_JUMP(code, k, jt, jf)` from `linux/filter.h`. -/
def BPF_JUMP (code k jt jf : Nat) : sock_filter := ⟨code, jt, jf, k⟩

/-- `BPF_LD|BPF_W|BPF_ABS` = 0x00|0x00|0x20 = 0x20. -/
def BPF_LD_W_ABS : Nat := 0x20

/-- `BPF_JMP|BPF_JEQ|BPF_K` = 0x05|0x10|0x00 = 0x15. -/
def BPF_JMP_JEQ_K : Nat := 0x15

/-- `BPF_RET|BPF_K` = 0x06|0x00 = 0x06. -/
def BPF_RET_K : Nat := 0x06

def SECCOMP_RET_KILL : Nat := 0x00000000
def SECCOMP_RET_TRAP : Nat := 0x00030000
def SECCOMP_RET_ERRNO : Nat := 0x00050000
def SECCOMP_RET_TRACE : Nat := 0x7ff00000
def SECCOMP_RET_ALLOW : Nat := 0x7fff0000

/-- `#define syscall_nr (offsetof(struct seccomp_data, nr))` = 0. -/
def syscall_nr : Nat := 0

/-- `#define arch_nr (offsetof(struct seccomp_data, arch))` = 4. -/
def arch_nr : Nat := 4

/-- `AUDIT_ARCH_AARCH64 = EM_AARCH64 | __AUDIT_ARCH_64BIT | __AUDIT_ARCH_LE`. -/
def AUDIT_ARCH_AARCH64 : Nat := 0xc00000b7

/-- `AUDIT_ARCH_ARM = EM_ARM | __AUDIT_ARCH_LE`. -/
def AUDIT_ARCH_ARM : Nat := 0x40000028

/-- One more than the largest `size_t` value (64-bit target). -/
def SIZE_T_MOD : Nat := 2 ^ 64

/-- `a - b` in `size_t` arithmetic: wraps modulo 2^64 on underflow. -/
def size_t_sub (a b : Nat) : Nat :=
  (a % SIZE_T_MOD + (SIZE_T_MOD - b % SIZE_T_MOD)) % SIZE_T_MOD

/-- `static inline void Kill(filter& f)` -/
def Kill (f : filter) : filter := f ++ [BPF_STMT BPF_RET_K SECCOMP_RET_KILL]

/-- `static inline void Trap(filter& f)` -/
def Trap (f : filter) : filter := f ++ [BPF_STMT BPF_RET_K SECCOMP_RET_TRAP]

/-- `static inline void Error(filter& f, __u16 retcode)`; the `__u16`
parameter is modelled by truncating `retcode` modulo 2^16. -/
def Error (f : filter) (retcode : Nat) : filter :=
  f ++ [BPF_STMT BPF_RET_K (SECCOMP_RET_ERRNO + retcode % 2 ^ 16)]

/-- `inline static void Trace(filter& f)` -/
def Trace (f : filter) : filter := f ++ [BPF_STMT BPF_RET_K SECCOMP_RET_TRACE]

/-- `inline static void Allow(filter& f)` -/
def Allow (f : filter) : filter := f ++ [BPF_STMT BPF_RET_K SECCOMP_RET_ALLOW]

/-- `inline static void ExamineSyscall(filter& f)` -/
def ExamineSyscall (f : filter) : filter :=
  f ++ [BPF_STMT BPF_LD_W_ABS syscall_nr]

/-- `inline static int SetValidateArchitectureJumpTarget(size_t offset, filter& f)`.
`jump_length = f.size() - offset - 1` in `size_t` arithmetic;
`u8_jump_length = (__u8) jump_length` truncates modulo 256; on mismatch the
function returns -1 with `f` untouched, otherwise it overwrites `f[offset]`
and returns 0.  The returned pair is (return value, resulting vector). -/
def SetValidateArchitectureJumpTarget (offset : Nat) (f : filter) :
    Int × filter :=
  let jump_length := size_t_sub (size_t_sub f.length offset) 1
  let u8_jump_length := jump_length % 256
  if u8_jump_length ≠ jump_length then
    (-1, f)
  else
    (0, f.set offset (BPF_JUMP BPF_JMP_JEQ_K AUDIT_ARCH_ARM u8_jump_length 0))

/-- `inline static size_t ValidateArchitectureAndJumpIfNeeded(filter& f)`.
Returns (`f.size() - 2` in `size_t` arithmetic, resulting vector). -/
def ValidateArchitectureAndJumpIfNeeded (f : filter) : Nat × filter :=
  let f := f ++ [BPF_STMT BPF_LD_W_ABS arch_nr]
  let f := f ++ [BPF_JUMP BPF_JMP_JEQ_K AUDIT_ARCH_AARCH64 2 0]
  let f := f ++ [BPF_JUMP BPF_JMP_JEQ_K AUDIT_ARCH_ARM 1 0]
  let f := Trap f
  (size_t_sub f.length 2, f)

/-- `static bool install_filter(filter const& f)`: submits `f` via
`prctl(PR_SET_SECCOMP, SECCOMP_MODE_FILTER, &prog)`.  The kernel's verdict
is external state, modelled by the predicate `prctl_accepts`; the function
returns false exactly when the kernel rejects the program. -/
def install_filter (prctl_accepts : filter → Bool) (f : filter) : Bool :=
  if prctl_accepts f = false then false else true

/-- C++ implicit int-to-bool conversion: nonzero converts to `true`.
`set_seccomp_filter` declares return type `bool` but executes `return -1;`
on its failure path, which goes through this conversion. -/
def intAsBool (n : Int) : Bool := n != 0

/-- Observable outcome of one run of `bool set_seccomp_filter()`:
the `bool` actually returned, and the program handed to `install_filter`
(none when installation was never reached). -/
structure SetSeccompFilterRun where
  ret : Bool
  submitted : Option filter
deriving DecidableEq, Repr

/-- `bool set_seccomp_filter()`.  The two autogenerated policy tables
`arm64_filter` / `arm_filter` are external data, passed as arguments; the
kernel's accept/reject decision is the external predicate `prctl_accepts`.
Mirrors the source line by line: gate, 64-bit ExamineSyscall, 64-bit block
copied element-wise, Trap, back-patch (with `return -1;` on failure, which
converts to `true` in the declared `bool` return type), 32-bit
ExamineSyscall, 32-bit block, Trap, `return install_filter(f);`. -/
def set_seccomp_filter (arm64_filter arm_filter : filter)
    (prctl_accepts : filter → Bool) : SetSeccompFilterRun :=
  let f : filter := []
  let gate := ValidateArchitectureAndJumpIfNeeded f
  let offset_to_32bit_filter := gate.1
  let f := gate.2
  let f := ExamineSyscall f
  let f := f ++ arm64_filter
  let f := Trap f
  let patched := SetValidateArchitectureJumpTarget offset_to_32bit_filter f
  if patched.1 ≠ 0 then
    { ret := intAsBool (-1), submitted := none }
  else
    let f := patched.2
    let f := ExamineSyscall f
    let f := f ++ arm_filter
    let f := Trap f
    { ret := install_filter prctl_accepts f, submitted := some f }

inductive ProcessOutcome where
  | continues
  | exited
deriving DecidableEq, Repr

/-- Observable effect of one call of the JNI entry point
`Seccomp_setPolicy`: whether the process continues or `exit(1)` runs,
whether filter construction was performed at all, and the program
submitted to the kernel (if any). -/
structure EntryRun where
  outcome : ProcessOutcome
  constructed : Bool
  submitted : Option filter
deriving DecidableEq, Repr

/-- `static void Seccomp_setPolicy(JNIEnv*)`.  The source contains two
definitions selected by `#if defined __arm__ || defined __aarch64__`;
`gated_arch` models that preprocessor condition.  On a gated architecture
the body is `if (!set_seccomp_filter()) exit(1);`; on any other
architecture the body is empty. -/
def Seccomp_setPolicy (gated_arch : Bool) (arm64_filter arm_filter : filter)
    (prctl_accepts : filter → Bool) : EntryRun :=
  if gated_arch then
    let r := set_seccomp_filter arm64_filter arm_filter prctl_accepts
    { outcome := if r.ret = false then ProcessOutcome.exited
                 else ProcessOutcome.continues,
      constructed := true,
      submitted := r.submitted }
  else
    { outcome := ProcessOutcome.continues, constructed := false,
      submitted := none }

/-- A kernel that accepts every program; used to instantiate
`prctl_accepts` in concrete runs. -/
def kernel_accepts_all : filter → Bool := fun _ => true

/-- A kernel that rejects every program; used to instantiate
`prctl_accepts` in concrete runs. -/
def kernel_rejects_all : filter → Bool := fun _ => false

/-- The data a seccomp filter inspects: `struct seccomp_data`'s syscall
number (offset 0) and architecture tag (offset 4). -/
structure SeccompData where
  nr : Nat
  arch : Nat
deriving DecidableEq, Repr

/-- `BPF_LD|BPF_W|BPF_ABS k`: the 32-bit word at offset `k` of
`struct seccomp_data`.  The builder only loads offsets 0 (nr) and
4 (arch); other offsets are modelled as 0. -/
def loadData (d : SeccompData) (k : Nat) : Nat :=
  if k = syscall_nr then d.nr else if k = arch_nr then d.arch else 0

/-- Result of simulated evaluation: a return instruction was reached with
value `k`, the program counter fell off the end of the program at `pc`, or
evaluation stopped (opcode outside the modelled fragment / out of fuel). -/
inductive EvalResult where
  | ret (k : Nat)
  | fellOff (pc : Nat)
  | stuck
deriving DecidableEq, Repr

/-- Fuel-indexed evaluator for the classic-BPF fragment the builder emits
(absolute 32-bit loads, jump-if-equal with forward offsets, return).
`A` is the accumulator. -/
def runFrom (f : filter) (d : SeccompData) : Nat → Nat → Nat → EvalResult
  | 0, _, _ => EvalResult.stuck
  | fuel + 1, pc, A =>
    match f[pc]? with
    | none => EvalResult.fellOff pc
    | some i =>
      if i.code = BPF_RET_K then EvalResult.ret i.k
      else if i.code = BPF_LD_W_ABS then
        runFrom f d fuel (pc + 1) (loadData d i.k)
      else if i.code = BPF_JMP_JEQ_K then
        runFrom f d fuel (pc + 1 + (if A = i.k then i.jt else i.jf)) A
      else EvalResult.stuck

/-- Simulated evaluation of a whole program on one datum.  Since every
modelled instruction advances `pc` by at least one, `f.length + 1` steps
always suffice for the run to leave the program or return. -/
def runFilter (f : filter) (d : SeccompData) : EvalResult :=
  runFrom f d (f.length + 1) 0 0

/-- Whether simulated evaluation ended at a return instruction. -/
def isRet : EvalResult → Bool
  | EvalResult.ret _ => true
  | EvalResult.fellOff _ => false
  | EvalResult.stuck => false

/-- A policy block "falls through" on a datum when evaluating it alone,
entered at its first instruction with the syscall number in the
accumulator, walks off its end at exactly its length (the instruction
immediately following the block). -/
def FallsThrough (b : filter) (d : SeccompData) : Prop :=
  runFrom b d (b.length + 1) 0 d.nr = EvalResult.fellOff b.length

instance (b : filter) (d : SeccompData) : Decidable (FallsThrough b d) := by
  unfold FallsThrough; infer_instance

/-- A policy block is well-behaved on a datum when its standalone
evaluation (entered at its start, syscall number in the accumulator)
either reaches a return instruction or falls through at exactly its end:
it neither jumps past its mandatory trailing Trap nor uses an opcode
outside the modelled fragment. -/
def blockOk (b : filter) (d : SeccompData) : Bool :=
  match runFrom b d (b.length + 1) 0 d.nr with
  | EvalResult.ret _ => true
  | EvalResult.fellOff q => q == b.length
  | EvalResult.stuck => false

/-- The load-architecture instruction the gate emits. -/
def LOAD_ARCH : sock_filter := BPF_STMT BPF_LD_W_ABS arch_nr

/-- The load-syscall-number instruction `ExamineSyscall` emits. -/
def LOAD_NR : sock_filter := BPF_STMT BPF_LD_W_ABS syscall_nr

/-- The fail-closed Trap terminal. -/
def TRAP_RET : sock_filter := BPF_STMT BPF_RET_K SECCOMP_RET_TRAP

theorem runFrom_zero (f : filter) (d : SeccompData) (pc A : Nat) :
    runFrom f d 0 pc A = EvalResult.stuck := rfl

theorem runFrom_succ (f : filter) (d : SeccompData) (fuel pc A : Nat) :
    runFrom f d (fuel + 1) pc A =
      match f[pc]? with
      | none => EvalResult.fellOff pc
      | some i =>
        if i.code = BPF_RET_K then EvalResult.ret i.k
        else if i.code = BPF_LD_W_ABS then
          runFrom f d fuel (pc + 1) (loadData d i.k)
        else if i.code = BPF_JMP_JEQ_K then
          runFrom f d fuel (pc + 1 + (if A = i.k then i.jt else i.jf)) A
        else EvalResult.stuck := rfl

theorem runFrom_mono (f : filter) (d : SeccompData) :
    ∀ fuel fuel2 pc A r, fuel ≤ fuel2 → runFrom f d fuel pc A = r →
      r ≠ EvalResult.stuck → runFrom f d fuel2 pc A = r := by
  intro fuel
  induction fuel with
  | zero =>
    intro fuel2 pc A r _ h hr
    rw [runFrom_zero] at h
    exact absurd h.symm hr
  | succ n ih =>
    intro fuel2 pc A r hle h hr
    obtain ⟨m, rfl⟩ : ∃ m, fuel2 = m + 1 := ⟨fuel2 - 1, by omega⟩
    cases hp : f[pc]? with
    | none =>
      rw [runFrom_succ, hp] at h
      rw [runFrom_succ, hp]
      exact h
    | some i =>
      rw [runFrom_succ, hp] at h
      rw [runFrom_succ, hp]
      by_cases h6 : i.code = BPF_RET_K
      · simp only [h6, if_pos rfl] at h ⊢; exact h
      · by_cases hld : i.code = BPF_LD_W_ABS
        · simp only [h6, hld, ite_true, ite_false] at h ⊢
          exact ih m _ _ _ (by omega) h hr
        · by_cases hjmp : i.code = BPF_JMP_JEQ_K
          · simp only [h6, hld, hjmp, ite_true, ite_false] at h ⊢
            exact ih m _ _ _ (by omega) h hr
          · simp only [h6, hld, hjmp, ite_false] at h ⊢
            exact h

theorem runFrom_shift_fellOff (g b : filter) (d : SeccompData) (s : Nat)
    (hemb : ∀ i, i < b.length → g[s + i]? = b[i]?) :
    ∀ fuel pc A q, runFrom b d fuel pc A = EvalResult.fellOff q →
      pc ≤ q ∧ ∃ u B, u ≤ q - pc ∧
        runFrom g d fuel (s + pc) A = runFrom g d (fuel - u) (s + q) B := by
  intro fuel
  induction fuel with
  | zero =>
    intro pc A q h
    rw [runFrom_zero] at h
    exact absurd h (by simp)
  | succ n ih =>
    intro pc A q h
    cases hp : b[pc]? with
    | none =>
      rw [runFrom_succ, hp] at h
      have hq : q = pc := by
        simp only [EvalResult.fellOff.injEq] at h
        omega
      subst hq
      refine ⟨le_refl _, 0, A, by omega, ?_⟩
      simp
    | some i =>
      have hpc : pc < b.length := by
        by_contra hge
        rw [List.getElem?_eq_none (by omega)] at hp
        exact Option.noConfusion hp
      have hg : g[s + pc]? = some i := by rw [hemb pc hpc, hp]
      rw [runFrom_succ, hp] at h
      by_cases h6 : i.code = BPF_RET_K
      · simp only [h6, if_pos rfl] at h; exact absurd h (by simp)
      · by_cases hld : i.code = BPF_LD_W_ABS
        · simp only [h6, hld, ite_true, ite_false] at h
          obtain ⟨hle, u, B, hu, heq⟩ := ih (pc + 1) (loadData d i.k) q h
          refine ⟨by omega, u + 1, B, by omega, ?_⟩
          rw [show n + 1 - (u + 1) = n - u by omega]
          rw [runFrom_succ, hg]
          simp only [h6, hld, ite_true, ite_false]
          rw [show s + pc + 1 = s + (pc + 1) by omega]
          exact heq
        · by_cases hjmp : i.code = BPF_JMP_JEQ_K
          · simp only [h6, hld, hjmp, ite_true, ite_false] at h
            obtain ⟨hle, u, B, hu, heq⟩ :=
              ih (pc + 1 + (if A = i.k then i.jt else i.jf)) A q h
            refine ⟨by omega, u + 1, B, by omega, ?_⟩
            rw [show n + 1 - (u + 1) = n - u by omega]
            rw [runFrom_succ, hg]
            simp only [h6, hld, hjmp, ite_true, ite_false]
            rw [show s + pc + 1 + (if A = i.k then i.jt else i.jf) =
                  s + (pc + 1 + (if A = i.k then i.jt else i.jf)) by omega]
            exact heq
          · simp only [h6, hld, hjmp, ite_false] at h
            exact absurd h (by simp)

theorem runFrom_step_ld (f : filter) (d : SeccompData) (fuel pc A k : Nat)
    (h : f[pc]? = some (BPF_STMT BPF_LD_W_ABS k)) :
    runFrom f d (fuel + 1) pc A = runFrom f d fuel (pc + 1) (loadData d k) := by
  rw [runFrom_succ, h]
  simp [BPF_STMT, BPF_LD_W_ABS, BPF_RET_K]

theorem runFrom_step_jeq (f : filter) (d : SeccompData)
    (fuel pc A k jt jf : Nat)
    (h : f[pc]? = some (BPF_JUMP BPF_JMP_JEQ_K k jt jf)) :
    runFrom f d (fuel + 1) pc A =
      runFrom f d fuel (pc + 1 + (if A = k then jt else jf)) A := by
  rw [runFrom_succ, h]
  simp [BPF_JUMP, BPF_JMP_JEQ_K, BPF_RET_K, BPF_LD_W_ABS]

theorem runFrom_step_ret (f : filter) (d : SeccompData) (fuel pc A k : Nat)
    (h : f[pc]? = some (BPF_STMT BPF_RET_K k)) :
    runFrom f d (fuel + 1) pc A = EvalResult.ret k := by
  rw [runFrom_succ, h]
  simp [BPF_STMT, BPF_RET_K]

theorem runFrom_ret_of_pos (f : filter) (d : SeccompData) (fuel pc A k : Nat)
    (hf : 0 < fuel) (h : f[pc]? = some (BPF_STMT BPF_RET_K k)) :
    runFrom f d fuel pc A = EvalResult.ret k := by
  obtain ⟨m, rfl⟩ : ∃ m, fuel = m + 1 := ⟨fuel - 1, by omega⟩
  exact runFrom_step_ret f d m pc A k h

theorem runFrom_shift_ret (g b : filter) (d : SeccompData) (s : Nat)
    (hemb : ∀ i, i < b.length → g[s + i]? = b[i]?) :
    ∀ fuel pc A k, runFrom b d fuel pc A = EvalResult.ret k →
      runFrom g d fuel (s + pc) A = EvalResult.ret k := by
  intro fuel
  induction fuel with
  | zero =>
    intro pc A k h
    rw [runFrom_zero] at h
    exact absurd h (by simp)
  | succ n ih =>
    intro pc A k h
    cases hp : b[pc]? with
    | none =>
      rw [runFrom_succ, hp] at h
      exact absurd h (by simp)
    | some i =>
      have hpc : pc < b.length := by
        by_contra hge
        rw [List.getElem?_eq_none (by omega)] at hp
        exact Option.noConfusion hp
      have hg : g[s + pc]? = some i := by rw [hemb pc hpc, hp]
      rw [runFrom_succ, hp] at h
      rw [runFrom_succ, hg]
      by_cases h6 : i.code = BPF_RET_K
      · simp only [h6, if_pos rfl] at h ⊢; exact h
      · by_cases hld : i.code = BPF_LD_W_ABS
        · simp only [h6, hld, ite_true, ite_false] at h ⊢
          have := ih (pc + 1) (loadData d i.k) k h
          rw [show s + (pc + 1) = s + pc + 1 by omega] at this
          exact this
        · by_cases hjmp : i.code = BPF_JMP_JEQ_K
          · simp only [h6, hld, hjmp, ite_true, ite_false] at h ⊢
            have := ih (pc + 1 + (if A = i.k then i.jt else i.jf)) A k h
            rw [show s + (pc + 1 + (if A = i.k then i.jt else i.jf)) =
                  s + pc + 1 + (if A = i.k then i.jt else i.jf) by omega] at this
            exact this
          · simp only [h6, hld, hjmp, ite_false] at h
            exact absurd h (by simp)

theorem gate_nil : ValidateArchitectureAndJumpIfNeeded [] =
    (2, [LOAD_ARCH, BPF_JUMP BPF_JMP_JEQ_K AUDIT_ARCH_AARCH64 2 0,
         BPF_JUMP BPF_JMP_JEQ_K AUDIT_ARCH_ARM 1 0, TRAP_RET]) := by rfl

theorem size_t_sub_eq (a b : Nat) (hb : b ≤ a) (ha : a < SIZE_T_MOD) :
    size_t_sub a b = a - b := by
  have hM : 0 < SIZE_T_MOD := by norm_num [SIZE_T_MOD]
  unfold size_t_sub
  rw [Nat.mod_eq_of_lt ha, Nat.mod_eq_of_lt (lt_of_le_of_lt hb ha)]
  have h1 : a + (SIZE_T_MOD - b) = (a - b) + SIZE_T_MOD := by omega
  rw [h1, Nat.add_mod_right]
  exact Nat.mod_eq_of_lt (by omega)

theorem list_set_two (x0 x1 x2 y : sock_filter) (rest : filter) :
    (x0 :: x1 :: x2 :: rest).set 2 y = x0 :: x1 :: y :: rest := rfl

theorem set_seccomp_filter_shape (a64 a32 : filter) (p : filter → Bool)
    (f : filter)
    (hb : (set_seccomp_filter a64 a32 p).submitted = some f) :
    ∃ jv, jv ≤ 255 ∧
      f = LOAD_ARCH :: BPF_JUMP BPF_JMP_JEQ_K AUDIT_ARCH_AARCH64 2 0 ::
          BPF_JUMP BPF_JMP_JEQ_K AUDIT_ARCH_ARM jv 0 :: TRAP_RET :: LOAD_NR ::
          (a64 ++ (TRAP_RET :: LOAD_NR :: (a32 ++ [TRAP_RET]))) ∧
      (a64.length + 6 < SIZE_T_MOD → jv = a64.length + 3) := by
  simp only [set_seccomp_filter, gate_nil] at hb
  have hpre : Trap (ExamineSyscall [LOAD_ARCH,
        BPF_JUMP BPF_JMP_JEQ_K AUDIT_ARCH_AARCH64 2 0,
        BPF_JUMP BPF_JMP_JEQ_K AUDIT_ARCH_ARM 1 0, TRAP_RET] ++ a64) =
      LOAD_ARCH :: BPF_JUMP BPF_JMP_JEQ_K AUDIT_ARCH_AARCH64 2 0 ::
      BPF_JUMP BPF_JMP_JEQ_K AUDIT_ARCH_ARM 1 0 :: TRAP_RET :: LOAD_NR ::
      (a64 ++ [TRAP_RET]) := by
    simp [Trap, ExamineSyscall, LOAD_NR, TRAP_RET]
  rw [hpre] at hb
  have hlen : (LOAD_ARCH :: BPF_JUMP BPF_JMP_JEQ_K AUDIT_ARCH_AARCH64 2 0 ::
      BPF_JUMP BPF_JMP_JEQ_K AUDIT_ARCH_ARM 1 0 :: TRAP_RET :: LOAD_NR ::
      (a64 ++ [TRAP_RET]) : filter).length = a64.length + 6 := by
    simp [List.length_append]
  simp only [SetValidateArchitectureJumpTarget, hlen] at hb
  by_cases hc : size_t_sub (size_t_sub (a64.length + 6) 2) 1 % 256 =
      size_t_sub (size_t_sub (a64.length + 6) 2) 1
  · simp only [ne_eq, hc, not_true_eq_false, if_false, if_neg] at hb
    rw [Option.some.injEq] at hb
    subst hb
    refine ⟨size_t_sub (size_t_sub (a64.length + 6) 2) 1, ?_, ?_, ?_⟩
    · have h256 : size_t_sub (size_t_sub (a64.length + 6) 2) 1 % 256 < 256 :=
        Nat.mod_lt _ (by norm_num)
      omega
    · simp [Trap, ExamineSyscall, LOAD_NR, TRAP_RET, list_set_two,
        List.append_assoc]
    · intro hsz
      rw [size_t_sub_eq (a64.length + 6) 2 (by omega) hsz]
      rw [size_t_sub_eq (a64.length + 6 - 2) 1 (by omega) (by omega)]
      omega
  · exfalso
    simp only [ne_eq, hc, not_false_eq_true, if_true] at hb
    norm_num at hb
    exact Option.noConfusion hb

theorem getElem5 (x0 x1 x2 x3 x4 : sock_filter) (t : filter) (i : Nat) :
    (x0 :: x1 :: x2 :: x3 :: x4 :: t)[5 + i]? = t[i]? := by
  have hv : x0 :: x1 :: x2 :: x3 :: x4 :: t = [x0, x1, x2, x3, x4] ++ t := rfl
  rw [hv, List.getElem?_append_right (by simp)]
  simp

theorem getElem2 (x0 x1 : sock_filter) (t : filter) (i : Nat) :
    (x0 :: x1 :: t)[2 + i]? = t[i]? := by
  have hv : x0 :: x1 :: t = [x0, x1] ++ t := rfl
  rw [hv, List.getElem?_append_right (by simp)]
  simp

theorem built_getElem_facts (a64 a32 : filter) (jv : Nat) (f : filter)
    (hf : f = LOAD_ARCH :: BPF_JUMP BPF_JMP_JEQ_K AUDIT_ARCH_AARCH64 2 0 ::
        BPF_JUMP BPF_JMP_JEQ_K AUDIT_ARCH_ARM jv 0 :: TRAP_RET :: LOAD_NR ::
        (a64 ++ (TRAP_RET :: LOAD_NR :: (a32 ++ [TRAP_RET])))) :
    f.length = a64.length + a32.length + 8 ∧
    f[0]? = some LOAD_ARCH ∧
    f[1]? = some (BPF_JUMP BPF_JMP_JEQ_K AUDIT_ARCH_AARCH64 2 0) ∧
    f[2]? = some (BPF_JUMP BPF_JMP_JEQ_K AUDIT_ARCH_ARM jv 0) ∧
    f[3]? = some TRAP_RET ∧
    f[4]? = some LOAD_NR ∧
    (∀ i, i < a64.length → f[5 + i]? = a64[i]?) ∧
    f[5 + a64.length]? = some TRAP_RET ∧
    f[6 + a64.length]? = some LOAD_NR ∧
    (∀ i, i < a32.length → f[7 + a64.length + i]? = a32[i]?) ∧
    f[7 + a64.length + a32.length]? = some TRAP_RET := by
  subst hf
  refine ⟨?_, by simp, by simp, by simp, by simp, by simp, ?_, ?_, ?_, ?_, ?_⟩
  · simp [List.length_append]
    omega
  · intro i hi
    rw [getElem5]
    exact List.getElem?_append_left hi
  · rw [getElem5, List.getElem?_append_right (le_refl _), Nat.sub_self]
    simp
  · rw [show 6 + a64.length = 5 + (a64.length + 1) by omega, getElem5,
      List.getElem?_append_right (by omega),
      show a64.length + 1 - a64.length = 1 by omega]
    simp
  · intro i hi
    rw [show 7 + a64.length + i = 5 + (a64.length + (2 + i)) by omega, getElem5,
      List.getElem?_append_right (by omega),
      show a64.length + (2 + i) - a64.length = 2 + i by omega, getElem2]
    exact List.getElem?_append_left hi
  · rw [show 7 + a64.length + a32.length = 5 + (a64.length + (2 + a32.length))
        by omega, getElem5,
      List.getElem?_append_right (by omega),
      show a64.length + (2 + a32.length) - a64.length = 2 + a32.length by omega,
      getElem2, List.getElem?_append_right (le_refl _), Nat.sub_self]
    simp

theorem run64_entry (f : filter) (d : SeccompData) (m : Nat)
    (h0 : f[0]? = some LOAD_ARCH)
    (h1 : f[1]? = some (BPF_JUMP BPF_JMP_JEQ_K AUDIT_ARCH_AARCH64 2 0))
    (h4 : f[4]? = some LOAD_NR)
    (hA : d.arch = AUDIT_ARCH_AARCH64) :
    runFrom f d (m + 1 + 1 + 1) 0 0 = runFrom f d m 5 d.nr := by
  have h0' : f[0]? = some (BPF_STMT BPF_LD_W_ABS arch_nr) := h0
  have h4' : f[4]? = some (BPF_STMT BPF_LD_W_ABS syscall_nr) := h4
  rw [runFrom_step_ld f d (m + 1 + 1) 0 0 arch_nr h0']
  have hl1 : loadData d arch_nr = d.arch := rfl
  rw [show (0 : Nat) + 1 = 1 from rfl, hl1]
  rw [runFrom_step_jeq f d (m + 1) 1 d.arch AUDIT_ARCH_AARCH64 2 0 h1]
  rw [hA, if_pos rfl]
  rw [show (1 : Nat) + 1 + 2 = 4 from rfl]
  rw [runFrom_step_ld f d m 4 AUDIT_ARCH_AARCH64 syscall_nr h4']
  have hl0 : loadData d syscall_nr = d.nr := rfl
  rw [show (4 : Nat) + 1 = 5 from rfl, hl0]

theorem run32_entry (f : filter) (d : SeccompData) (m jv : Nat)
    (h0 : f[0]? = some LOAD_ARCH)
    (h1 : f[1]? = some (BPF_JUMP BPF_JMP_JEQ_K AUDIT_ARCH_AARCH64 2 0))
    (h2 : f[2]? = some (BPF_JUMP BPF_JMP_JEQ_K AUDIT_ARCH_ARM jv 0))
    (hld : f[3 + jv]? = some LOAD_NR)
    (hA : d.arch = AUDIT_ARCH_ARM) :
    runFrom f d (m + 1 + 1 + 1 + 1) 0 0 = runFrom f d m (4 + jv) d.nr := by
  have h0' : f[0]? = some (BPF_STMT BPF_LD_W_ABS arch_nr) := h0
  have hld' : f[3 + jv]? = some (BPF_STMT BPF_LD_W_ABS syscall_nr) := hld
  rw [runFrom_step_ld f d (m + 1 + 1 + 1) 0 0 arch_nr h0']
  have hl1 : loadData d arch_nr = d.arch := rfl
  rw [show (0 : Nat) + 1 = 1 from rfl, hl1]
  rw [runFrom_step_jeq f d (m + 1 + 1) 1 d.arch AUDIT_ARCH_AARCH64 2 0 h1]
  rw [hA, if_neg (by decide)]
  rw [show (1 : Nat) + 1 + 0 = 2 from rfl]
  rw [runFrom_step_jeq f d (m + 1) 2 AUDIT_ARCH_ARM AUDIT_ARCH_ARM jv 0 h2]
  rw [if_pos rfl]
  rw [show (2 : Nat) + 1 + jv = 3 + jv by omega]
  rw [runFrom_step_ld f d m (3 + jv) AUDIT_ARCH_ARM syscall_nr hld']
  have hl0 : loadData d syscall_nr = d.nr := rfl
  rw [show 3 + jv + 1 = 4 + jv by omega, hl0]

theorem run_other_arch (f : filter) (d : SeccompData) (m jv : Nat)
    (h0 : f[0]? = some LOAD_ARCH)
    (h1 : f[1]? = some (BPF_JUMP BPF_JMP_JEQ_K AUDIT_ARCH_AARCH64 2 0))
    (h2 : f[2]? = some (BPF_JUMP BPF_JMP_JEQ_K AUDIT_ARCH_ARM jv 0))
    (h3 : f[3]? = some TRAP_RET)
    (hA64 : d.arch ≠ AUDIT_ARCH_AARCH64)
    (hARM : d.arch ≠ AUDIT_ARCH_ARM) :
    runFrom f d (m + 1 + 1 + 1 + 1) 0 0 = EvalResult.ret SECCOMP_RET_TRAP := by
  have h0' : f[0]? = some (BPF_STMT BPF_LD_W_ABS arch_nr) := h0
  have h3' : f[3]? = some (BPF_STMT BPF_RET_K SECCOMP_RET_TRAP) := h3
  rw [runFrom_step_ld f d (m + 1 + 1 + 1) 0 0 arch_nr h0']
  have hl1 : loadData d arch_nr = d.arch := rfl
  rw [show (0 : Nat) + 1 = 1 from rfl, hl1]
  rw [runFrom_step_jeq f d (m + 1 + 1) 1 d.arch AUDIT_ARCH_AARCH64 2 0 h1]
  rw [if_neg hA64]
  rw [show (1 : Nat) + 1 + 0 = 2 from rfl]
  rw [runFrom_step_jeq f d (m + 1) 2 d.arch AUDIT_ARCH_ARM jv 0 h2]
  rw [if_neg hARM]
  rw [show (2 : Nat) + 1 + 0 = 3 from rfl]
  exact runFrom_step_ret f d m 3 d.arch SECCOMP_RET_TRAP h3'

theorem run_fallthrough_to_trap (g b : filter) (d : SeccompData) (s : Nat)
    (hemb : ∀ i, i < b.length → g[s + i]? = b[i]?)
    (htrap : g[s + b.length]? = some TRAP_RET)
    (hft : FallsThrough b d)
    (fuel : Nat) (hfuel : b.length + 1 ≤ fuel) :
    runFrom g d fuel s d.nr = EvalResult.ret SECCOMP_RET_TRAP := by
  have hmono := runFrom_mono b d (b.length + 1) fuel 0 d.nr
    (EvalResult.fellOff b.length) hfuel hft (by simp)
  obtain ⟨hle, u, B, hu, heq⟩ :=
    runFrom_shift_fellOff g b d s hemb fuel 0 d.nr b.length hmono
  rw [Nat.add_zero] at heq
  rw [heq]
  have htrap' : g[s + b.length]? = some (BPF_STMT BPF_RET_K SECCOMP_RET_TRAP) :=
    htrap
  exact runFrom_ret_of_pos g d (fuel - u) (s + b.length) B SECCOMP_RET_TRAP
    (by omega) htrap'

theorem run_blockOk_to_ret (g b : filter) (d : SeccompData) (s : Nat)
    (hemb : ∀ i, i < b.length → g[s + i]? = b[i]?)
    (htrap : g[s + b.length]? = some TRAP_RET)
    (hok : blockOk b d = true)
    (fuel : Nat) (hfuel : b.length + 1 ≤ fuel) :
    ∃ k, runFrom g d fuel s d.nr = EvalResult.ret k := by
  have hok' := hok
  unfold blockOk at hok'
  cases hr : runFrom b d (b.length + 1) 0 d.nr with
  | ret k =>
    have hmono := runFrom_mono b d (b.length + 1) fuel 0 d.nr
      (EvalResult.ret k) hfuel hr (by simp)
    have hctx := runFrom_shift_ret g b d s hemb fuel 0 d.nr k hmono
    rw [Nat.add_zero] at hctx
    exact ⟨k, hctx⟩
  | fellOff q =>
    rw [hr] at hok'
    have hq : q = b.length := by simpa using hok'
    subst hq
    exact ⟨SECCOMP_RET_TRAP,
      run_fallthrough_to_trap g b d s hemb htrap hr fuel hfuel⟩
  | stuck =>
    rw [hr] at hok'
    simp at hok'

/-- Claim C2: `SetValidateArchitectureJumpTarget` computes
`distance = currentLength - patchPoint.index - 1` and fails (returns -1)
if and only if that distance exceeds 255; on failure the program is
unchanged (nothing truncated or wrapped), and on success it rewrites the
branch at the patch index with the distance as true-branch offset and 0 as
false-branch offset. -/
theorem claim_C2_resolve (f : filter) (offset : Nat)
    (hofs : offset < f.length) (hlen : f.length < SIZE_T_MOD) :
    ((SetValidateArchitectureJumpTarget offset f).1 = -1 ↔
      255 < f.length - offset - 1) ∧
    (255 < f.length - offset - 1 →
      (SetValidateArchitectureJumpTarget offset f).2 = f) ∧
    (f.length - offset - 1 ≤ 255 →
      (SetValidateArchitectureJumpTarget offset f).1 = 0 ∧
      (SetValidateArchitectureJumpTarget offset f).2 =
        f.set offset (BPF_JUMP BPF_JMP_JEQ_K AUDIT_ARCH_ARM
          (f.length - offset - 1) 0)) := by
  have hjl : size_t_sub (size_t_sub f.length offset) 1 =
      f.length - offset - 1 := by
    rw [size_t_sub_eq f.length offset (by omega) hlen]
    rw [size_t_sub_eq (f.length - offset) 1 (by omega) (by omega)]
  simp only [SetValidateArchitectureJumpTarget, hjl]
  by_cases hgt : 255 < f.length - offset - 1
  · have hne : (f.length - offset - 1) % 256 ≠ f.length - offset - 1 := by
      have hm : (f.length - offset - 1) % 256 < 256 :=
        Nat.mod_lt _ (by norm_num)
      omega
    rw [if_pos hne]
    exact ⟨⟨fun _ => hgt, fun _ => rfl⟩, fun _ => rfl,
      fun hle => absurd hgt (by omega)⟩
  · have heq : (f.length - offset - 1) % 256 = f.length - offset - 1 :=
      Nat.mod_eq_of_lt (by omega)
    rw [if_neg (not_ne_iff.mpr heq)]
    refine ⟨⟨fun h0 => absurd h0 (by norm_num), fun h => absurd h hgt⟩,
      fun h => absurd h hgt, fun _ => ⟨rfl, ?_⟩⟩
    rw [heq]

theorem claim_C2_resolve_witness :
    ((2 : Nat) < ([TRAP_RET, TRAP_RET, TRAP_RET, TRAP_RET] : filter).length ∧
      ([TRAP_RET, TRAP_RET, TRAP_RET, TRAP_RET] : filter).length <
        SIZE_T_MOD) ∧
    (((SetValidateArchitectureJumpTarget 2
          [TRAP_RET, TRAP_RET, TRAP_RET, TRAP_RET]).1 = -1 ↔ 255 < 1) ∧
     (255 < 1 →
       (SetValidateArchitectureJumpTarget 2
          [TRAP_RET, TRAP_RET, TRAP_RET, TRAP_RET]).2 =
         [TRAP_RET, TRAP_RET, TRAP_RET, TRAP_RET]) ∧
     (1 ≤ 255 →
       (SetValidateArchitectureJumpTarget 2
          [TRAP_RET, TRAP_RET, TRAP_RET, TRAP_RET]).1 = 0 ∧
       (SetValidateArchitectureJumpTarget 2
          [TRAP_RET, TRAP_RET, TRAP_RET, TRAP_RET]).2 =
         [TRAP_RET, TRAP_RET, TRAP_RET, TRAP_RET].set 2
           (BPF_JUMP BPF_JMP_JEQ_K AUDIT_ARCH_ARM 1 0))) :=
  ⟨⟨by decide, by decide⟩,
   claim_C2_resolve [TRAP_RET, TRAP_RET, TRAP_RET, TRAP_RET] 2
     (by decide) (by decide)⟩

/-- Claim C10: `SetValidateArchitectureJumpTarget` never changes the
program length, leaves the program entirely unchanged on the failure path,
and in all cases leaves every instruction other than the one at the patch
index unchanged. -/
theorem claim_C10_frame (f : filter) (offset j : Nat) (hj : j ≠ offset) :
    (SetValidateArchitectureJumpTarget offset f).2.length = f.length ∧
    ((SetValidateArchitectureJumpTarget offset f).1 = -1 →
      (SetValidateArchitectureJumpTarget offset f).2 = f) ∧
    (SetValidateArchitectureJumpTarget offset f).2[j]? = f[j]? := by
  simp only [SetValidateArchitectureJumpTarget]
  by_cases hc : size_t_sub (size_t_sub f.length offset) 1 % 256 =
      size_t_sub (size_t_sub f.length offset) 1
  · rw [if_neg (not_ne_iff.mpr hc)]
    exact ⟨List.length_set f offset _, fun h => absurd h (by norm_num),
      List.getElem?_set_ne (Ne.symm hj)⟩
  · rw [if_pos hc]
    exact ⟨rfl, fun _ => rfl, rfl⟩

theorem claim_C10_frame_witness :
    ((0 : Nat) ≠ 2) ∧
    ((SetValidateArchitectureJumpTarget 2
        [TRAP_RET, TRAP_RET, TRAP_RET, TRAP_RET]).2.length =
      ([TRAP_RET, TRAP_RET, TRAP_RET, TRAP_RET] : filter).length ∧
    ((SetValidateArchitectureJumpTarget 2
        [TRAP_RET, TRAP_RET, TRAP_RET, TRAP_RET]).1 = -1 →
      (SetValidateArchitectureJumpTarget 2
        [TRAP_RET, TRAP_RET, TRAP_RET, TRAP_RET]).2 =
        [TRAP_RET, TRAP_RET, TRAP_RET, TRAP_RET]) ∧
    (SetValidateArchitectureJumpTarget 2
        [TRAP_RET, TRAP_RET, TRAP_RET, TRAP_RET]).2[0]? =
      ([TRAP_RET, TRAP_RET, TRAP_RET, TRAP_RET] : filter)[0]?) :=
  ⟨by decide,
   claim_C10_frame [TRAP_RET, TRAP_RET, TRAP_RET, TRAP_RET] 2 0 (by decide)⟩

/-- Claim C3 counterexample: the gate's branch-equal against the 64-bit
tag is emitted with a true-jump of 2 (skipping two instructions: the
32-bit check and the Trap), not a true-jump of 1 as the claim's "skips
exactly one instruction" would require. -/
theorem claim_C3_counterexample :
    (ValidateArchitectureAndJumpIfNeeded []).2[1]? ≠
      some (BPF_JUMP BPF_JMP_JEQ_K AUDIT_ARCH_AARCH64 1 0) ∧
    (ValidateArchitectureAndJumpIfNeeded []).2[1]? =
      some (BPF_JUMP BPF_JMP_JEQ_K AUDIT_ARCH_AARCH64 2 0) := by decide

/-- Claim C3 (amended): the Architecture Gate emits exactly, in order, a
load-architecture instruction, a branch-equal against the 64-bit tag whose
fixed true-jump skips exactly two instructions (the 32-bit check and the
Trap), a branch-equal against the 32-bit tag whose true-jump is the
placeholder 1, and a Trap terminal; and it returns the index of the
32-bit branch. -/
theorem claim_C3_gate (f : filter) (hsz : f.length + 4 < SIZE_T_MOD) :
    ValidateArchitectureAndJumpIfNeeded f =
      (f.length + 2,
       f ++ [LOAD_ARCH, BPF_JUMP BPF_JMP_JEQ_K AUDIT_ARCH_AARCH64 2 0,
             BPF_JUMP BPF_JMP_JEQ_K AUDIT_ARCH_ARM 1 0, TRAP_RET]) ∧
    (f ++ [LOAD_ARCH, BPF_JUMP BPF_JMP_JEQ_K AUDIT_ARCH_AARCH64 2 0,
           BPF_JUMP BPF_JMP_JEQ_K AUDIT_ARCH_ARM 1 0,
           TRAP_RET])[f.length + 2]? =
      some (BPF_JUMP BPF_JMP_JEQ_K AUDIT_ARCH_ARM 1 0) := by
  constructor
  · simp only [ValidateArchitectureAndJumpIfNeeded, Trap, Prod.mk.injEq]
    constructor
    · have hl : (f ++ [BPF_STMT BPF_LD_W_ABS arch_nr] ++
          [BPF_JUMP BPF_JMP_JEQ_K AUDIT_ARCH_AARCH64 2 0] ++
          [BPF_JUMP BPF_JMP_JEQ_K AUDIT_ARCH_ARM 1 0] ++
          [BPF_STMT BPF_RET_K SECCOMP_RET_TRAP]).length = f.length + 4 := by
        simp
      rw [hl, size_t_sub_eq (f.length + 4) 2 (by omega) hsz]
      omega
    · simp [LOAD_ARCH, TRAP_RET]
  · rw [List.getElem?_append_right (by omega),
      show f.length + 2 - f.length = 2 by omega]
    simp

theorem claim_C3_gate_witness :
    (([] : filter).length + 4 < SIZE_T_MOD) ∧
    (ValidateArchitectureAndJumpIfNeeded [] =
      (([] : filter).length + 2,
       [] ++ [LOAD_ARCH, BPF_JUMP BPF_JMP_JEQ_K AUDIT_ARCH_AARCH64 2 0,
              BPF_JUMP BPF_JMP_JEQ_K AUDIT_ARCH_ARM 1 0, TRAP_RET]) ∧
     (([] : filter) ++ [LOAD_ARCH,
        BPF_JUMP BPF_JMP_JEQ_K AUDIT_ARCH_AARCH64 2 0,
        BPF_JUMP BPF_JMP_JEQ_K AUDIT_ARCH_ARM 1 0,
        TRAP_RET])[([] : filter).length + 2]? =
      some (BPF_JUMP BPF_JMP_JEQ_K AUDIT_ARCH_ARM 1 0)) :=
  ⟨by decide, claim_C3_gate [] (by decide)⟩

/-- Claim C9: on any architecture outside the two gated ones the entry
point performs no filter construction and no installation and returns
normally, for every possible policy table and kernel. -/
theorem claim_C9_ungated_noop (a64 a32 : filter) (p : filter → Bool) :
    Seccomp_setPolicy false a64 a32 p =
      { outcome := ProcessOutcome.continues, constructed := false,
        submitted := none } := rfl

/-- Claim C8: the build is deterministic: byte-identical policy blocks
yield a byte-identical submitted instruction sequence, independently even
of the kernel's accept/reject behaviour. -/
theorem claim_C8_deterministic (a64 b64 a32 b32 : filter)
    (p q : filter → Bool) (h64 : a64 = b64) (h32 : a32 = b32) :
    (set_seccomp_filter a64 a32 p).submitted =
      (set_seccomp_filter b64 b32 q).submitted := by
  subst h64
  subst h32
  simp only [set_seccomp_filter]
  by_cases hc : (SetValidateArchitectureJumpTarget
      (ValidateArchitectureAndJumpIfNeeded []).1
      (Trap (ExamineSyscall (ValidateArchitectureAndJumpIfNeeded []).2 ++
        a64))).1 ≠ 0
  · rw [if_pos hc, if_pos hc]
  · rw [if_neg hc, if_neg hc]

theorem claim_C8_deterministic_witness :
    (([TRAP_RET] : filter) = [TRAP_RET] ∧ ([] : filter) = []) ∧
    (set_seccomp_filter [TRAP_RET] [] kernel_accepts_all).submitted =
      (set_seccomp_filter [TRAP_RET] [] kernel_rejects_all).submitted :=
  ⟨⟨rfl, rfl⟩,
   claim_C8_deterministic [TRAP_RET] [TRAP_RET] [] [] kernel_accepts_all
     kernel_rejects_all rfl rfl⟩

set_option maxRecDepth 10000 in
/-- Claim C1 (code bug): with an arm64 policy block of 300 instructions the
jump patcher fails (distance 303 > 255), yet `set_seccomp_filter` executes
`return -1;` in a function whose declared return type is `bool`, and -1
converts to `true`: the function reports success to its caller, no program
is ever submitted to the kernel, and `Seccomp_setPolicy` does not exit —
the process continues unprotected, contradicting the claimed fail-closed
contract.  This holds for every kernel behaviour `p`. -/
theorem claim_C1_patch_failure_not_fatal (p : filter → Bool) :
    (set_seccomp_filter
        (List.replicate 300 (BPF_STMT BPF_RET_K SECCOMP_RET_ALLOW)) []
        p).ret = true ∧
    (set_seccomp_filter
        (List.replicate 300 (BPF_STMT BPF_RET_K SECCOMP_RET_ALLOW)) []
        p).submitted = none ∧
    (Seccomp_setPolicy true
        (List.replicate 300 (BPF_STMT BPF_RET_K SECCOMP_RET_ALLOW)) []
        p).outcome = ProcessOutcome.continues := by
  exact ⟨rfl, rfl, rfl⟩

/-- Claim C4: for every architecture tag other than the two gated tags and
every syscall number, simulated evaluation of the fully built program
(whatever the contents of the two policy blocks) reaches the gate's Trap
terminal. -/
theorem claim_C4_other_arch_traps (a64 a32 : filter) (p : filter → Bool)
    (f : filter) (hb : (set_seccomp_filter a64 a32 p).submitted = some f)
    (arch nr : Nat)
    (h64 : arch ≠ AUDIT_ARCH_AARCH64) (h32 : arch ≠ AUDIT_ARCH_ARM) :
    runFilter f ⟨nr, arch⟩ = EvalResult.ret SECCOMP_RET_TRAP := by
  obtain ⟨jv, hjv, hf, hcond⟩ := set_seccomp_filter_shape a64 a32 p f hb
  obtain ⟨hlen, h0, h1, h2, h3, h4, hblk64, ht64, hnr32, hblk32, ht32⟩ :=
    built_getElem_facts a64 a32 jv f hf
  unfold runFilter
  rw [hlen, show a64.length + a32.length + 8 + 1 =
      a64.length + a32.length + 5 + 1 + 1 + 1 + 1 by omega]
  exact run_other_arch f ⟨nr, arch⟩ (a64.length + a32.length + 5) jv
    h0 h1 h2 h3 h64 h32

theorem claim_C4_other_arch_traps_witness :
    ((set_seccomp_filter [] [] kernel_accepts_all).submitted =
      some (LOAD_ARCH :: BPF_JUMP BPF_JMP_JEQ_K AUDIT_ARCH_AARCH64 2 0 ::
        BPF_JUMP BPF_JMP_JEQ_K AUDIT_ARCH_ARM 3 0 :: TRAP_RET :: LOAD_NR ::
        ([] ++ (TRAP_RET :: LOAD_NR :: ([] ++ [TRAP_RET])))) ∧
     (7 : Nat) ≠ AUDIT_ARCH_AARCH64 ∧ (7 : Nat) ≠ AUDIT_ARCH_ARM) ∧
    runFilter (LOAD_ARCH :: BPF_JUMP BPF_JMP_JEQ_K AUDIT_ARCH_AARCH64 2 0 ::
        BPF_JUMP BPF_JMP_JEQ_K AUDIT_ARCH_ARM 3 0 :: TRAP_RET :: LOAD_NR ::
        ([] ++ (TRAP_RET :: LOAD_NR :: ([] ++ [TRAP_RET])))) ⟨9, 7⟩ =
      EvalResult.ret SECCOMP_RET_TRAP :=
  ⟨⟨by decide, by decide, by decide⟩,
   claim_C4_other_arch_traps [] [] kernel_accepts_all
     (LOAD_ARCH :: BPF_JUMP BPF_JMP_JEQ_K AUDIT_ARCH_AARCH64 2 0 ::
       BPF_JUMP BPF_JMP_JEQ_K AUDIT_ARCH_ARM 3 0 :: TRAP_RET :: LOAD_NR ::
       ([] ++ (TRAP_RET :: LOAD_NR :: ([] ++ [TRAP_RET]))))
     (by decide) 7 9 (by decide) (by decide)⟩

/-- Claim C5: the Policy Embedder appends each architecture's policy block
verbatim, in order, with exactly one Trap terminal immediately after it
(the built program decomposes exactly as gate, 64-bit load, the arm64
block, Trap, 32-bit load, the arm32 block, Trap); consequently, on a
syscall id on which a block falls through, simulated evaluation under that
architecture's tag yields Trap. -/
theorem claim_C5_policy_embedding (a64 a32 : filter) (p : filter → Bool)
    (f : filter) (hsz : a64.length + 6 < SIZE_T_MOD)
    (hb : (set_seccomp_filter a64 a32 p).submitted = some f)
    (nr64 nr32 : Nat)
    (hft64 : FallsThrough a64 ⟨nr64, AUDIT_ARCH_AARCH64⟩)
    (hft32 : FallsThrough a32 ⟨nr32, AUDIT_ARCH_ARM⟩) :
    f = LOAD_ARCH :: BPF_JUMP BPF_JMP_JEQ_K AUDIT_ARCH_AARCH64 2 0 ::
        BPF_JUMP BPF_JMP_JEQ_K AUDIT_ARCH_ARM (a64.length + 3) 0 ::
        TRAP_RET :: LOAD_NR ::
        (a64 ++ (TRAP_RET :: LOAD_NR :: (a32 ++ [TRAP_RET]))) ∧
    runFilter f ⟨nr64, AUDIT_ARCH_AARCH64⟩ =
      EvalResult.ret SECCOMP_RET_TRAP ∧
    runFilter f ⟨nr32, AUDIT_ARCH_ARM⟩ = EvalResult.ret SECCOMP_RET_TRAP := by
  obtain ⟨jv, hjv, hf, hcond⟩ := set_seccomp_filter_shape a64 a32 p f hb
  have hjv3 : jv = a64.length + 3 := hcond hsz
  subst hjv3
  obtain ⟨hlen, h0, h1, h2, h3, h4, hblk64, ht64, hnr32, hblk32, ht32⟩ :=
    built_getElem_facts a64 a32 (a64.length + 3) f hf
  refine ⟨hf, ?_, ?_⟩
  · unfold runFilter
    rw [hlen, show a64.length + a32.length + 8 + 1 =
        a64.length + a32.length + 6 + 1 + 1 + 1 by omega]
    rw [run64_entry f ⟨nr64, AUDIT_ARCH_AARCH64⟩
        (a64.length + a32.length + 6) h0 h1 h4 rfl]
    exact run_fallthrough_to_trap f a64 ⟨nr64, AUDIT_ARCH_AARCH64⟩ 5
      hblk64 ht64 hft64 (a64.length + a32.length + 6) (by omega)
  · unfold runFilter
    rw [hlen, show a64.length + a32.length + 8 + 1 =
        a64.length + a32.length + 5 + 1 + 1 + 1 + 1 by omega]
    rw [run32_entry f ⟨nr32, AUDIT_ARCH_ARM⟩
        (a64.length + a32.length + 5) (a64.length + 3) h0 h1 h2
        (by rw [show 3 + (a64.length + 3) = 6 + a64.length by omega]
            exact hnr32) rfl]
    rw [show 4 + (a64.length + 3) = 7 + a64.length by omega]
    exact run_fallthrough_to_trap f a32 ⟨nr32, AUDIT_ARCH_ARM⟩
      (7 + a64.length) hblk32 ht32 hft32
      (a64.length + a32.length + 5) (by omega)

theorem claim_C5_policy_embedding_witness :
    ((([] : filter).length + 6 < SIZE_T_MOD ∧
      (set_seccomp_filter [] [] kernel_accepts_all).submitted =
        some (LOAD_ARCH :: BPF_JUMP BPF_JMP_JEQ_K AUDIT_ARCH_AARCH64 2 0 ::
          BPF_JUMP BPF_JMP_JEQ_K AUDIT_ARCH_ARM 3 0 :: TRAP_RET :: LOAD_NR ::
          ([] ++ (TRAP_RET :: LOAD_NR :: ([] ++ [TRAP_RET]))))) ∧
     FallsThrough [] ⟨5, AUDIT_ARCH_AARCH64⟩ ∧
     FallsThrough [] ⟨6, AUDIT_ARCH_ARM⟩) ∧
    ((LOAD_ARCH :: BPF_JUMP BPF_JMP_JEQ_K AUDIT_ARCH_AARCH64 2 0 ::
        BPF_JUMP BPF_JMP_JEQ_K AUDIT_ARCH_ARM 3 0 :: TRAP_RET :: LOAD_NR ::
        ([] ++ (TRAP_RET :: LOAD_NR :: ([] ++ [TRAP_RET])))) =
      LOAD_ARCH :: BPF_JUMP BPF_JMP_JEQ_K AUDIT_ARCH_AARCH64 2 0 ::
        BPF_JUMP BPF_JMP_JEQ_K AUDIT_ARCH_ARM (([] : filter).length + 3) 0 ::
        TRAP_RET :: LOAD_NR ::
        ([] ++ (TRAP_RET :: LOAD_NR :: ([] ++ [TRAP_RET]))) ∧
     runFilter (LOAD_ARCH :: BPF_JUMP BPF_JMP_JEQ_K AUDIT_ARCH_AARCH64 2 0 ::
        BPF_JUMP BPF_JMP_JEQ_K AUDIT_ARCH_ARM 3 0 :: TRAP_RET :: LOAD_NR ::
        ([] ++ (TRAP_RET :: LOAD_NR :: ([] ++ [TRAP_RET]))))
        ⟨5, AUDIT_ARCH_AARCH64⟩ = EvalResult.ret SECCOMP_RET_TRAP ∧
     runFilter (LOAD_ARCH :: BPF_JUMP BPF_JMP_JEQ_K AUDIT_ARCH_AARCH64 2 0 ::
        BPF_JUMP BPF_JMP_JEQ_K AUDIT_ARCH_ARM 3 0 :: TRAP_RET :: LOAD_NR ::
        ([] ++ (TRAP_RET :: LOAD_NR :: ([] ++ [TRAP_RET]))))
        ⟨6, AUDIT_ARCH_ARM⟩ = EvalResult.ret SECCOMP_RET_TRAP) :=
  ⟨⟨⟨by decide, by decide⟩, by decide, by decide⟩,
   claim_C5_policy_embedding [] [] kernel_accepts_all
     (LOAD_ARCH :: BPF_JUMP BPF_JMP_JEQ_K AUDIT_ARCH_AARCH64 2 0 ::
       BPF_JUMP BPF_JMP_JEQ_K AUDIT_ARCH_ARM 3 0 :: TRAP_RET :: LOAD_NR ::
       ([] ++ (TRAP_RET :: LOAD_NR :: ([] ++ [TRAP_RET]))))
     (by decide) (by decide) 5 6 (by decide) (by decide)⟩

/-- Claim C6: after a successful Resolve, the gate's 32-bit branch at index
2 carries resolved distance `a64.length + 3`, and taking its true branch
(target index `2 + 1 + distance`) lands exactly on the 32-bit
load-syscall-number instruction, which sits immediately after the 64-bit
section's Trap terminal. -/
theorem claim_C6_patched_jump_target (a64 a32 : filter) (p : filter → Bool)
    (f : filter) (hsz : a64.length + 6 < SIZE_T_MOD)
    (hb : (set_seccomp_filter a64 a32 p).submitted = some f) :
    f[2]? = some (BPF_JUMP BPF_JMP_JEQ_K AUDIT_ARCH_ARM (a64.length + 3) 0) ∧
    2 + 1 + (a64.length + 3) = a64.length + 6 ∧
    f[a64.length + 5]? = some TRAP_RET ∧
    f[a64.length + 6]? = some LOAD_NR := by
  obtain ⟨jv, hjv, hf, hcond⟩ := set_seccomp_filter_shape a64 a32 p f hb
  have hjv3 : jv = a64.length + 3 := hcond hsz
  subst hjv3
  obtain ⟨hlen, h0, h1, h2, h3, h4, hblk64, ht64, hnr32, hblk32, ht32⟩ :=
    built_getElem_facts a64 a32 (a64.length + 3) f hf
  refine ⟨h2, by omega, ?_, ?_⟩
  · rw [show a64.length + 5 = 5 + a64.length by omega]
    exact ht64
  · rw [show a64.length + 6 = 6 + a64.length by omega]
    exact hnr32

theorem claim_C6_patched_jump_target_witness :
    ((([] : filter).length + 6 < SIZE_T_MOD ∧
      (set_seccomp_filter [] [] kernel_accepts_all).submitted =
        some (LOAD_ARCH :: BPF_JUMP BPF_JMP_JEQ_K AUDIT_ARCH_AARCH64 2 0 ::
          BPF_JUMP BPF_JMP_JEQ_K AUDIT_ARCH_ARM 3 0 :: TRAP_RET :: LOAD_NR ::
          ([] ++ (TRAP_RET :: LOAD_NR :: ([] ++ [TRAP_RET])))))) ∧
    ((LOAD_ARCH :: BPF_JUMP BPF_JMP_JEQ_K AUDIT_ARCH_AARCH64 2 0 ::
        BPF_JUMP BPF_JMP_JEQ_K AUDIT_ARCH_ARM 3 0 :: TRAP_RET :: LOAD_NR ::
        ([] ++ (TRAP_RET :: LOAD_NR :: ([] ++ [TRAP_RET]))) : filter)[2]? =
      some (BPF_JUMP BPF_JMP_JEQ_K AUDIT_ARCH_ARM
        (([] : filter).length + 3) 0) ∧
     2 + 1 + (([] : filter).length + 3) = ([] : filter).length + 6 ∧
     (LOAD_ARCH :: BPF_JUMP BPF_JMP_JEQ_K AUDIT_ARCH_AARCH64 2 0 ::
        BPF_JUMP BPF_JMP_JEQ_K AUDIT_ARCH_ARM 3 0 :: TRAP_RET :: LOAD_NR ::
        ([] ++ (TRAP_RET :: LOAD_NR :: ([] ++ [TRAP_RET]))) :
        filter)[([] : filter).length + 5]? = some TRAP_RET ∧
     (LOAD_ARCH :: BPF_JUMP BPF_JMP_JEQ_K AUDIT_ARCH_AARCH64 2 0 ::
        BPF_JUMP BPF_JMP_JEQ_K AUDIT_ARCH_ARM 3 0 :: TRAP_RET :: LOAD_NR ::
        ([] ++ (TRAP_RET :: LOAD_NR :: ([] ++ [TRAP_RET]))) :
        filter)[([] : filter).length + 6]? = some LOAD_NR) :=
  ⟨⟨by decide, by decide⟩,
   claim_C6_patched_jump_target [] [] kernel_accepts_all
     (LOAD_ARCH :: BPF_JUMP BPF_JMP_JEQ_K AUDIT_ARCH_AARCH64 2 0 ::
       BPF_JUMP BPF_JMP_JEQ_K AUDIT_ARCH_ARM 3 0 :: TRAP_RET :: LOAD_NR ::
       ([] ++ (TRAP_RET :: LOAD_NR :: ([] ++ [TRAP_RET]))))
     (by decide) (by decide)⟩

/-- Claim C7 counterexample: with an arm64 policy block consisting of the
single jump `BPF_JUMP(JEQ, 0, 200, 200)`, the builder succeeds, yet
simulated evaluation of the built program on (arch = AARCH64, nr = 0)
jumps past the end of the program and falls off at index 206 — it reaches
no return instruction, refuting the claim for arbitrary block contents. -/
theorem claim_C7_counterexample :
    (set_seccomp_filter [BPF_JUMP BPF_JMP_JEQ_K 0 200 200] []
        kernel_accepts_all).submitted =
      some (LOAD_ARCH :: BPF_JUMP BPF_JMP_JEQ_K AUDIT_ARCH_AARCH64 2 0 ::
        BPF_JUMP BPF_JMP_JEQ_K AUDIT_ARCH_ARM 4 0 :: TRAP_RET :: LOAD_NR ::
        BPF_JUMP BPF_JMP_JEQ_K 0 200 200 :: TRAP_RET :: LOAD_NR ::
        [TRAP_RET]) ∧
    runFilter (LOAD_ARCH :: BPF_JUMP BPF_JMP_JEQ_K AUDIT_ARCH_AARCH64 2 0 ::
        BPF_JUMP BPF_JMP_JEQ_K AUDIT_ARCH_ARM 4 0 :: TRAP_RET :: LOAD_NR ::
        BPF_JUMP BPF_JMP_JEQ_K 0 200 200 :: TRAP_RET :: LOAD_NR ::
        [TRAP_RET]) ⟨0, AUDIT_ARCH_AARCH64⟩ = EvalResult.fellOff 206 := by
  decide

/-- Claim C7 (amended): for every program produced by the builder from
policy blocks that are well-behaved on the given datum (their standalone
evaluation returns or falls through at exactly their end, rather than
jumping past their mandatory Trap or using an unmodelled opcode),
simulated evaluation against any architecture tag and syscall number
reaches exactly one return instruction and never falls off the end. -/
theorem claim_C7_total (a64 a32 : filter) (p : filter → Bool)
    (f : filter) (hsz : a64.length + 6 < SIZE_T_MOD)
    (hb : (set_seccomp_filter a64 a32 p).submitted = some f)
    (d : SeccompData)
    (h64 : blockOk a64 d = true) (h32 : blockOk a32 d = true) :
    isRet (runFilter f d) = true := by
  obtain ⟨jv, hjv, hf, hcond⟩ := set_seccomp_filter_shape a64 a32 p f hb
  have hjv3 : jv = a64.length + 3 := hcond hsz
  subst hjv3
  obtain ⟨hlen, h0, h1, h2, h3, h4, hblk64, ht64, hnr32, hblk32, ht32⟩ :=
    built_getElem_facts a64 a32 (a64.length + 3) f hf
  by_cases hA64 : d.arch = AUDIT_ARCH_AARCH64
  · unfold runFilter
    rw [hlen, show a64.length + a32.length + 8 + 1 =
        a64.length + a32.length + 6 + 1 + 1 + 1 by omega]
    rw [run64_entry f d (a64.length + a32.length + 6) h0 h1 h4 hA64]
    obtain ⟨k, hk⟩ := run_blockOk_to_ret f a64 d 5 hblk64 ht64 h64
      (a64.length + a32.length + 6) (by omega)
    rw [hk]
    rfl
  · by_cases hARM : d.arch = AUDIT_ARCH_ARM
    · unfold runFilter
      rw [hlen, show a64.length + a32.length + 8 + 1 =
          a64.length + a32.length + 5 + 1 + 1 + 1 + 1 by omega]
      rw [run32_entry f d (a64.length + a32.length + 5) (a64.length + 3)
          h0 h1 h2
          (by rw [show 3 + (a64.length + 3) = 6 + a64.length by omega]
              exact hnr32) hARM]
      rw [show 4 + (a64.length + 3) = 7 + a64.length by omega]
      obtain ⟨k, hk⟩ := run_blockOk_to_ret f a32 d (7 + a64.length)
        hblk32 ht32 h32 (a64.length + a32.length + 5) (by omega)
      rw [hk]
      rfl
    · unfold runFilter
      rw [hlen, show a64.length + a32.length + 8 + 1 =
          a64.length + a32.length + 5 + 1 + 1 + 1 + 1 by omega]
      rw [run_other_arch f d (a64.length + a32.length + 5) (a64.length + 3)
        h0 h1 h2 h3 hA64 hARM]
      rfl

theorem claim_C7_total_witness :
    ((([] : filter).length + 6 < SIZE_T_MOD ∧
      (set_seccomp_filter [] [] kernel_accepts_all).submitted =
        some (LOAD_ARCH :: BPF_JUMP BPF_JMP_JEQ_K AUDIT_ARCH_AARCH64 2 0 ::
          BPF_JUMP BPF_JMP_JEQ_K AUDIT_ARCH_ARM 3 0 :: TRAP_RET :: LOAD_NR ::
          ([] ++ (TRAP_RET :: LOAD_NR :: ([] ++ [TRAP_RET]))))) ∧
     blockOk [] ⟨11, 13⟩ = true ∧ blockOk [] ⟨11, 13⟩ = true) ∧
    isRet (runFilter (LOAD_ARCH ::
        BPF_JUMP BPF_JMP_JEQ_K AUDIT_ARCH_AARCH64 2 0 ::
        BPF_JUMP BPF_JMP_JEQ_K AUDIT_ARCH_ARM 3 0 :: TRAP_RET :: LOAD_NR ::
        ([] ++ (TRAP_RET :: LOAD_NR :: ([] ++ [TRAP_RET])))) ⟨11, 13⟩) =
      true :=
  ⟨⟨⟨by decide, by decide⟩, by decide, by decide⟩,
   claim_C7_total [] [] kernel_accepts_all
     (LOAD_ARCH :: BPF_JUMP BPF_JMP_JEQ_K AUDIT_ARCH_AARCH64 2 0 ::
       BPF_JUMP BPF_JMP_JEQ_K AUDIT_ARCH_ARM 3 0 :: TRAP_RET :: LOAD_NR ::
       ([] ++ (TRAP_RET :: LOAD_NR :: ([] ++ [TRAP_RET]))))
     (by decide) (by decide) ⟨11, 13⟩ (by decide) (by decide)⟩
